import Mathlib

/-!
Verification of the wsl_scrapper repository's crawl-orchestration core.

The Python sources (`ui_app.py`, `wsl_surfer_focused.py`, `config.py`) are
shallowly embedded below: pure fragments become Lean functions, the stateful
pool/pagination loops become explicit state-passing folds, and network fetches
become explicit response environments.  Python strings are modelled as
`List Char`; HTML/DOM selection (delegated by the spec to the external Parser
collaborator) is elided, so listing pages yield descriptor records directly.
-/

namespace WslScrapper

/-! ## Python string primitives shared by several components -/

/-- The ASCII whitespace characters recognised by Python's `str.strip()` and
the regex class `\s` (non-ASCII Unicode whitespace is elided; no input in
this development contains any). -/
def pyIsSpace (c : Char) : Bool :=
  c = ' ' || c = '\t' || c = '\n' || c = '\r' || c = '\x0b' || c = '\x0c'

/-- Python `str.strip()`: drop leading and trailing whitespace. -/
def pyStrip (s : List Char) : List Char :=
  ((s.dropWhile pyIsSpace).reverse.dropWhile pyIsSpace).reverse

/-- Python `str.lower()` (ASCII range; all inputs here are ASCII). -/
def toLowerStr (s : List Char) : List Char :=
  s.map Char.toLower

/-- Decimal digit to character. -/
def digitChar (n : Nat) : Char :=
  Char.ofNat (48 + n)

/-- Decimal rendering with explicit fuel (the fuel strictly dominates the
number, so it never runs out; structural recursion keeps the function
kernel-reducible). -/
def natReprAux : Nat → Nat → List Char
  | 0, _ => []
  | fuel + 1, n =>
    if n < 10 then [digitChar n]
    else natReprAux fuel (n / 10) ++ [digitChar (n % 10)]

/-- Decimal rendering of a natural number, most significant digit first
(Python `str(n)` for `n ≥ 0`). -/
def natRepr (n : Nat) : List Char := natReprAux (n + 1) n

/-- Value of a digit character. -/
def charVal (c : Char) : Nat :=
  c.toNat - 48

/-- Decimal value of a digit string (inverse of `natRepr`). -/
def reprVal (s : List Char) : Nat :=
  s.foldl (fun a c => 10 * a + charVal c) 0

theorem reprVal_append (s : List Char) (c : Char) :
    reprVal (s ++ [c]) = 10 * reprVal s + charVal c := by
  simp [reprVal, List.foldl_append]

theorem charVal_digitChar (n : Nat) (h : n < 10) : charVal (digitChar n) = n := by
  interval_cases n <;> decide

theorem reprVal_natReprAux :
    ∀ (fuel n : Nat), n < fuel → reprVal (natReprAux fuel n) = n := by
  intro fuel
  induction fuel with
  | zero => intro n h; omega
  | succ fuel ih =>
    intro n h
    by_cases h10 : n < 10
    · rw [natReprAux, if_pos h10]
      simp [reprVal, charVal_digitChar n h10]
    · rw [natReprAux, if_neg h10, reprVal_append,
        ih (n / 10) (by omega),
        charVal_digitChar (n % 10) (Nat.mod_lt _ (by omega))]
      omega

theorem reprVal_natRepr (n : Nat) : reprVal (natRepr n) = n :=
  reprVal_natReprAux (n + 1) n (Nat.lt_succ_self n)

theorem natRepr_injective : Function.Injective natRepr := by
  intro a b h
  have := reprVal_natRepr a
  rw [h, reprVal_natRepr] at this
  omega

/-- Left-pad a digit string with zeros to the given width
(Python `f"{n:0{w}d}"` for `n ≥ 0`). -/
def padNat (w : Nat) (n : Nat) : List Char :=
  List.replicate (w - (natRepr n).length) '0' ++ natRepr n

/-! ## C1 — startup recovery of the persisted job snapshot
(`ui_app.py`, `load_jobs_state`, lines 46-62)

A persisted job payload is a JSON object; the fields the recovery code touches
are `status` and `logs` (the latter possibly absent, hence `Option`), and all
remaining fields (`id`, `params`, `summary`, `progress`, ...) are untouched,
represented abstractly by `rest`.  Payloads are modelled as well-typed. -/

structure JobPayload where
  status : String
  logs : Option (List String)
  rest : String
deriving DecidableEq, Repr

/-- The log line appended by `load_jobs_state` to a stale running job. -/
def interruptionMsg : String :=
  "Proceso anterior interrumpido por reinicio del servidor"

/-- Per-payload recovery step of `load_jobs_state` (ui_app.py lines 56-60):
a payload persisted as 'running' becomes 'interrupted' with one log line
appended (`payload.setdefault('logs', []).append(...)`); any other payload is
stored unchanged. -/
def recoverJob (p : JobPayload) : JobPayload :=
  if p.status = "running" then
    { p with status := "interrupted",
             logs := some ((p.logs.getD []) ++ [interruptionMsg]) }
  else p

/-- Embedding of `load_jobs_state` (ui_app.py lines 46-62): the job table is cleared and
repopulated from the persisted snapshot, each payload passing through
`recoverJob`.  The function is pure in the snapshot: the resulting table is
exactly the rewritten snapshot, with no other mutation. -/
def load_jobs_state (snapshot : List (String × JobPayload)) :
    List (String × JobPayload) :=
  snapshot.map (fun kv => (kv.1, recoverJob kv.2))

/-- C1: startup recovery rewrites every persisted 'running' job to
'interrupted' with exactly one appended log entry (the interruption notice),
keeping all other fields; jobs persisted as 'finished' or 'error' are loaded
with all fields unchanged; the loaded table is exactly the rewritten snapshot
(same keys, same order, no other mutation). -/
theorem load_jobs_state_recovery (snapshot : List (String × JobPayload))
    (k : String) (p : JobPayload) (hmem : (k, p) ∈ snapshot) :
    (load_jobs_state snapshot).length = snapshot.length ∧
    (p.status = "running" →
      (k, { p with status := "interrupted",
                   logs := some ((p.logs.getD []) ++ [interruptionMsg]) })
        ∈ load_jobs_state snapshot) ∧
    (p.status = "finished" ∨ p.status = "error" →
      (k, p) ∈ load_jobs_state snapshot) := by
  refine ⟨by simp [load_jobs_state], ?_, ?_⟩
  · intro hrun
    have h1 := List.mem_map_of_mem (fun kv => (kv.1, recoverJob kv.2)) hmem
    have h2 : (k, recoverJob p) ∈ load_jobs_state snapshot := by
      simpa [load_jobs_state] using h1
    simpa [recoverJob, hrun] using h2
  · intro hdone
    have hne : p.status ≠ "running" := by
      rcases hdone with h | h <;> simp [h]
    have h1 := List.mem_map_of_mem (fun kv => (kv.1, recoverJob kv.2)) hmem
    have h2 : (k, recoverJob p) ∈ load_jobs_state snapshot := by
      simpa [load_jobs_state] using h1
    simpa [recoverJob, hne] using h2

/-- Witness for C1 at a concrete snapshot: one stale running job and one
finished job. -/
theorem load_jobs_state_recovery_witness :
    (("j1", ({ status := "running", logs := some ["started"], rest := "r1" } : JobPayload))
        ∈ [("j1", ({ status := "running", logs := some ["started"], rest := "r1" } : JobPayload)),
           ("j2", ({ status := "finished", logs := some [], rest := "r2" } : JobPayload))]) ∧
    ("j1", ({ status := "interrupted",
              logs := some ["started", interruptionMsg], rest := "r1" } : JobPayload))
      ∈ load_jobs_state
          [("j1", { status := "running", logs := some ["started"], rest := "r1" }),
           ("j2", { status := "finished", logs := some [], rest := "r2" })] := by
  refine ⟨by decide, ?_⟩
  have h := load_jobs_state_recovery
    [("j1", { status := "running", logs := some ["started"], rest := "r1" }),
     ("j2", { status := "finished", logs := some [], rest := "r2" })]
    "j1" { status := "running", logs := some ["started"], rest := "r1" }
    (by decide)
  simpa using h.2.1 (by decide)

/-! ## C3 — transient-retry policy of the session
(`wsl_surfer_focused.py`, `WSLSurferFocused.__init__`, lines 74-82)

The constructor mounts `Retry(total=3, backoff_factor=0.5,
status_forcelist=[429, 500, 502, 503, 504])` on the HTTP session.  A logical
fetch is modelled against a script of successive response statuses: a status
in the forcelist consumes a retry and re-issues the request; any other status
is returned to the caller after the current request.  Exhausting the retry
budget raises (MaxRetryError), modelled as `Except.error` carrying the number
of requests issued.  Backoff sleeping does not affect the response sequence
and is represented only by the configured factor. -/

/-- The configured transient status forcelist (line 77). -/
def transientStatuses : List Nat := [429, 500, 502, 503, 504]

/-- The configured retry bound `total=3` (line 77). -/
def retryTotal : Nat := 3

/-- The configured exponential-backoff base `backoff_factor=0.5` (line 77). -/
def backoffFactor : ℚ := 1 / 2

/-- One logical session GET against a script of successive statuses,
returning the first non-transient response together with the number of
requests issued, or the request count at retry exhaustion. -/
def sessionGet : List Nat → Nat → Nat → Except Nat (Nat × Nat)
  | [], _, issued => .error issued
  | r :: rest, retriesLeft, issued =>
    if r ∈ transientStatuses then
      match retriesLeft with
      | 0 => .error (issued + 1)
      | rl + 1 => sessionGet rest rl (issued + 1)
    else .ok (r, issued + 1)

/-- A fetch as configured by `WSLSurferFocused.__init__`. -/
def fetchWithRetry (responses : List Nat) : Except Nat (Nat × Nat) :=
  sessionGet responses retryTotal 0

/-- Classification of a fetch as seen by the scraper's call sites: a 200
response is the successful document, any other delivered status is a
permanent (non-retried) error, and retry exhaustion is the transient failure
surfaced by the adapter. -/
inductive FetchOutcome where
  | doc (status : Nat)
  | permError (status : Nat)
  | transientExhausted
deriving DecidableEq, Repr

/-- Outcome and request count of one logical fetch. -/
def classifyFetch (responses : List Nat) : FetchOutcome × Nat :=
  match fetchWithRetry responses with
  | .ok (s, n) => (if s = 200 then .doc s else .permError s, n)
  | .error n => (.transientExhausted, n)

/-- C3: with the configured policy (transient set {429,500,502,503,504},
retry bound 3, backoff base 0.5s), a fetch facing [503, 503, 200] returns the
200 document after exactly 3 requests, and a fetch facing [404] returns a
permanent, non-retried error after exactly 1 request. -/
theorem fetch_retry_scenarios :
    classifyFetch [503, 503, 200] = (.doc 200, 3) ∧
    classifyFetch [404] = (.permError 404, 1) ∧
    503 ∈ transientStatuses ∧ (404 : Nat) ∉ transientStatuses ∧
    transientStatuses = [429, 500, 502, 503, 504] ∧
    retryTotal = 3 ∧ backoffFactor = 1 / 2 := by
  refine ⟨by decide, by decide, by decide, by decide, rfl, rfl, rfl⟩

/-! ## Discovery: `get_surfers` (`wsl_surfer_focused.py`, lines 146-220)

The HTML selection of `.athlete-name` / `.athlete-country-name` elements and
the numeric-id regex belong to the external Parser collaborator, so listing
pages are modelled as yielding entity descriptors directly (the source's
zipping of the two selector lists and the dropping of rows without a numeric
id or a name happen inside that elision).  A fetch of a listing page either
yields a page (`ok`), returns a non-200 status (`badStatus`), or raises a
transport exception (`exn`); an exception propagates to the single
`try/except` wrapping the whole of `get_surfers`, which returns `[]`. -/

structure Desc where
  id : List Char
  name : List Char
  country : List Char
deriving DecidableEq, Repr

inductive FetchResult where
  | ok (page : List Desc)
  | badStatus
  | exn
deriving DecidableEq, Repr

/-- Result of fetching the first listing page: descriptors plus the parsed
pagination indicator "(first) - (last) of (total) items" when the
`.paginationLabel` element exists and matches (lines 164-171). -/
inductive FirstFetch where
  | ok (descs : List Desc) (ind : Option (Nat × Nat × Nat))
  | badStatus
  | exn
deriving DecidableEq, Repr

/-- The response environment seen by one discovery run: the first page and
the offset-parameterised subsequent pages. -/
structure DiscoveryEnv where
  first : FirstFetch
  offsetPage : Nat → FetchResult

/-- The pagination `while last_index < total_surfers` loop of `get_surfers`
(lines 172-185): fetch at offset `last`; a non-200 status breaks the loop
(accumulation so far kept); an exception propagates out (`none`); a page is
accumulated, an empty page breaks, and a non-empty page advances the offset
by its length. -/
def paginateAthletes (server : Nat → FetchResult) (total last : Nat) :
    Option (List Desc) :=
  if h : last < total then
    match server last with
    | .badStatus => some []
    | .exn => none
    | .ok page =>
      if hp : page.length = 0 then some []
      else (paginateAthletes server total (last + page.length)).map
        (fun t => page ++ t)
  else some []
termination_by total - last
decreasing_by omega

/-- Token normalisation of the surfer filter (lines 200-201): keep tokens
that are non-blank after stripping, then strip and lowercase each. -/
def tokensLower (filt : List (List Char)) : List (List Char) :=
  (filt.filter (fun t => !(pyStrip t).isEmpty)).map (fun t => toLowerStr (pyStrip t))

/-- Embedding of `match_surfer` (lines 203-211): a descriptor matches when some normalised
token equals its id, or is non-empty and occurs in the lowercased name. -/
def match_surfer (toks : List (List Char)) (s : Desc) : Bool :=
  toks.any (fun tok =>
    tok == s.id || (!tok.isEmpty && decide (tok <:+: toLowerStr s.name)))

/-- The filtering step of `get_surfers` (lines 198-213); Python's
`if self.surfer_filter:` treats an absent or empty filter as "no filter". -/
def applySurferFilter (filt : Option (List (List Char))) (ss : List Desc) :
    List Desc :=
  match filt with
  | none => ss
  | some [] => ss
  | some (t :: ts) => ss.filter (fun s => match_surfer (tokensLower (t :: ts)) s)

/-- Embedding of `get_surfers` (lines 146-220): first page, pagination, then the optional
surfer filter; any first-page failure or propagated exception yields `[]`. -/
def get_surfers (env : DiscoveryEnv) (surferFilter : Option (List (List Char))) :
    List Desc :=
  match env.first with
  | .badStatus => []
  | .exn => []
  | .ok descs ind =>
    match (match ind with
           | some x => paginateAthletes env.offsetPage x.2.2 x.2.1
           | none => some []) with
    | none => []
    | some extra => applySurferFilter surferFilter (descs ++ extra)

/-- Offset reached after consuming `i` pages starting from offset `last`. -/
def cumOffset (last : Nat) : List (List Desc) → Nat → Nat
  | _, 0 => last
  | [], _ + 1 => last
  | p :: ps, i + 1 => cumOffset (last + p.length) ps i

/-- Walking a sequence of successfully served, non-empty pages whose offsets
all lie below the declared total prepends their concatenation to whatever the
loop does from the offset past them. -/
theorem paginate_walk (server : Nat → FetchResult) (total : Nat) :
    ∀ (pages : List (List Desc)) (last : Nat),
    (∀ i (h : i < pages.length),
        server (cumOffset last pages i) = .ok (pages.get ⟨i, h⟩) ∧
        pages.get ⟨i, h⟩ ≠ [] ∧ cumOffset last pages i < total) →
    paginateAthletes server total last =
      (paginateAthletes server total (cumOffset last pages pages.length)).map
        (fun t => pages.flatten ++ t) := by
  intro pages
  induction pages with
  | nil =>
    intro last _
    cases hr : paginateAthletes server total (cumOffset last [] 0) with
    | none => simpa [cumOffset] using hr
    | some t => simpa [cumOffset] using hr
  | cons p ps ih =>
    intro last hwalk
    obtain ⟨hserve, hpne, hlt⟩ := hwalk 0 (by simp)
    simp only [cumOffset, List.get] at hserve hpne hlt
    have hlen : ¬ p.length = 0 := by simpa using hpne
    rw [paginateAthletes, dif_pos hlt, hserve]
    simp only [dif_neg hlen]
    have ihs := ih (last + p.length) (fun i h => by
      have := hwalk (i + 1) (by simpa using Nat.succ_lt_succ h)
      simpa [cumOffset] using this)
    rw [ihs]
    have : cumOffset last (p :: ps) (ps.length + 1) =
        cumOffset (last + p.length) ps ps.length := rfl
    rw [List.length_cons, this]
    cases paginateAthletes server total (cumOffset (last + p.length) ps ps.length) with
    | none => simp
    | some t => simp

/-- C4: when page 1 carries a "(first) - (last) of (total) items" indicator
and the offset requests serve non-empty pages at the successively observed
offsets (each below the declared total) until the walk either reaches the
total or hits a page with zero new descriptors, `get_surfers` (unfiltered)
returns exactly the first page followed by the concatenation of the served
pages, in page order; when the first page and the served pages are duplicate
free and pairwise disjoint, the result has no duplicates. -/
theorem get_surfers_pagination_concat
    (env : DiscoveryEnv) (firstDescs : List Desc) (fi last total : Nat)
    (pages : List (List Desc))
    (hfirst : env.first = .ok firstDescs (some (fi, last, total)))
    (hwalk : ∀ i (h : i < pages.length),
        env.offsetPage (cumOffset last pages i) = .ok (pages.get ⟨i, h⟩) ∧
        pages.get ⟨i, h⟩ ≠ [] ∧ cumOffset last pages i < total)
    (hend : total ≤ cumOffset last pages pages.length ∨
        env.offsetPage (cumOffset last pages pages.length) = .ok [])
    (hdisj : List.Pairwise List.Disjoint (firstDescs :: pages))
    (hnd1 : firstDescs.Nodup) (hndp : ∀ p ∈ pages, p.Nodup) :
    get_surfers env none = firstDescs ++ pages.flatten ∧
    (get_surfers env none).Nodup := by
  have htail : paginateAthletes env.offsetPage total
      (cumOffset last pages pages.length) = some [] := by
    rcases hend with h | h
    · rw [paginateAthletes, dif_neg (by omega)]
    · by_cases hlt : cumOffset last pages pages.length < total
      · rw [paginateAthletes, dif_pos hlt, h]
        simp
      · rw [paginateAthletes, dif_neg hlt]
  have hpag : paginateAthletes env.offsetPage total last = some pages.flatten := by
    rw [paginate_walk env.offsetPage total pages last hwalk, htail]
    simp
  have hres : get_surfers env none = firstDescs ++ pages.flatten := by
    simp only [get_surfers, hfirst, hpag, applySurferFilter]
  refine ⟨hres, ?_⟩
  rw [hres]
  obtain ⟨hhead, htailp⟩ := List.pairwise_cons.mp hdisj
  refine List.nodup_append.mpr ⟨hnd1, List.nodup_flatten.mpr ⟨hndp, htailp⟩, ?_⟩
  intro a ha hb
  obtain ⟨p, hp, hap⟩ := List.mem_flatten.mp hb
  exact hhead p hp ha hap

/-- Witness for C4: first page [d1, d2] with indicator (1, 2, 3), one
subsequent page [d3] at offset 2, walk ending because the offset reaches the
declared total of 3. -/
theorem get_surfers_pagination_concat_witness :
    get_surfers
      ⟨.ok [⟨['1'], ['A'], ['E']⟩, ⟨['2'], ['B'], ['E']⟩] (some (1, 2, 3)),
       fun o => if o = 2 then .ok [⟨['3'], ['C'], ['E']⟩] else .exn⟩ none
      = [⟨['1'], ['A'], ['E']⟩, ⟨['2'], ['B'], ['E']⟩, ⟨['3'], ['C'], ['E']⟩] ∧
    (get_surfers
      ⟨.ok [⟨['1'], ['A'], ['E']⟩, ⟨['2'], ['B'], ['E']⟩] (some (1, 2, 3)),
       fun o => if o = 2 then .ok [⟨['3'], ['C'], ['E']⟩] else .exn⟩ none).Nodup := by
  have h := get_surfers_pagination_concat
    ⟨.ok [⟨['1'], ['A'], ['E']⟩, ⟨['2'], ['B'], ['E']⟩] (some (1, 2, 3)),
     fun o => if o = 2 then .ok [⟨['3'], ['C'], ['E']⟩] else .exn⟩
    [⟨['1'], ['A'], ['E']⟩, ⟨['2'], ['B'], ['E']⟩] 1 2 3
    [[⟨['3'], ['C'], ['E']⟩]]
    rfl
    (by decide)
    (by left; decide)
    (by
      refine List.Pairwise.cons ?_ (List.Pairwise.cons ?_ List.Pairwise.nil)
      · intro p hp
        have hp' : p = [⟨['3'], ['C'], ['E']⟩] := by simpa using hp
        subst hp'
        exact List.disjoint_left.mpr (by decide)
      · intro p hp
        simp at hp)
    (by decide)
    (by decide)
  exact ⟨h.1, h.2⟩

/-! ## C5 — the surfer filter -/

/-- The filter-retention predicate exactly as the specification states it: a
token matches when it equals the id verbatim or the display name contains it
case-insensitively. -/
def specClaimRetain (filt : List (List Char)) (s : Desc) : Bool :=
  filt.any (fun tok =>
    tok == s.id || decide (toLowerStr tok <:+: toLowerStr s.name))

/-- C5 counterexample: the token " 10158 " (surrounded by whitespace) neither
equals the id "10158" verbatim nor occurs case-insensitively in the name
"Foo", so under the claim the descriptor must be dropped; the code strips the
token before comparing and retains it. -/
theorem surfer_filter_claim_counterexample :
    applySurferFilter (some [[' ', '1', '0', '1', '5', '8', ' ']])
        [⟨['1', '0', '1', '5', '8'], ['F', 'o', 'o'], ['E', 'S', 'P']⟩]
      = [⟨['1', '0', '1', '5', '8'], ['F', 'o', 'o'], ['E', 'S', 'P']⟩] ∧
    specClaimRetain [[' ', '1', '0', '1', '5', '8', ' ']]
        ⟨['1', '0', '1', '5', '8'], ['F', 'o', 'o'], ['E', 'S', 'P']⟩ = false := by
  constructor
  · decide
  · decide

/-- The retention predicate the code actually implements: some token is
non-blank after stripping, and its stripped lowercased form either equals the
id or occurs as a substring of the lowercased display name. -/
def amendedRetain (filt : List (List Char)) (s : Desc) : Prop :=
  ∃ tok ∈ filt, pyStrip tok ≠ [] ∧
    (toLowerStr (pyStrip tok) = s.id ∨
     toLowerStr (pyStrip tok) <:+: toLowerStr s.name)

theorem match_surfer_iff (filt : List (List Char)) (s : Desc) :
    match_surfer (tokensLower filt) s = true ↔ amendedRetain filt s := by
  simp only [match_surfer, tokensLower, List.any_eq_true, List.mem_map,
    List.mem_filter, amendedRetain]
  constructor
  · rintro ⟨tok, ⟨t, ⟨ht, htne⟩, rfl⟩, hmatch⟩
    refine ⟨t, ht, by simpa using htne, ?_⟩
    rcases Bool.or_eq_true_iff.mp hmatch with h | h
    · exact Or.inl (by simpa using h)
    · exact Or.inr (by simpa using (Bool.and_eq_true_iff.mp h).2)
  · rintro ⟨t, ht, htne, hcase⟩
    have hne' : toLowerStr (pyStrip t) ≠ [] := by
      simpa [toLowerStr] using htne
    refine ⟨toLowerStr (pyStrip t), ⟨t, ⟨ht, by simpa using htne⟩, rfl⟩, ?_⟩
    rcases hcase with h | h
    · simp [h]
    · simp [hne', h]

/-- C5 amended: with a non-empty configured filter, the filtered output
retains a descriptor iff it was discovered and some filter token is non-blank
after stripping surrounding whitespace and its stripped, lowercased form
either exactly equals the descriptor's id or occurs as a substring of the
lowercased display name (hence case-insensitively, for mixed-case tokens). -/
theorem surfer_filter_amended (filt : List (List Char)) (s : Desc)
    (ss : List Desc) (hne : filt ≠ []) :
    s ∈ applySurferFilter (some filt) ss ↔ s ∈ ss ∧ amendedRetain filt s := by
  obtain ⟨t, ts, rfl⟩ := List.exists_cons_of_ne_nil hne
  rw [applySurferFilter, List.mem_filter, match_surfer_iff]

/-- Witness for C5 amended: the mixed-case token "aDUr" retains
"Adur Amatriain" and drops "Leticia Canales". -/
theorem surfer_filter_amended_witness :
    ((['a', 'D', 'U', 'r'] : List Char) :: [] ≠ []) ∧
    (⟨['1', '0'], ['A', 'd', 'u', 'r'], ['E', 'S', 'P']⟩ ∈
        applySurferFilter (some [['a', 'D', 'U', 'r']])
          [⟨['1', '0'], ['A', 'd', 'u', 'r'], ['E', 'S', 'P']⟩,
           ⟨['1', '1'], ['L', 'e', 't', 'i'], ['E', 'S', 'P']⟩] ↔
      (⟨['1', '0'], ['A', 'd', 'u', 'r'], ['E', 'S', 'P']⟩ : Desc) ∈
          [⟨['1', '0'], ['A', 'd', 'u', 'r'], ['E', 'S', 'P']⟩,
           ⟨['1', '1'], ['L', 'e', 't', 'i'], ['E', 'S', 'P']⟩] ∧
        amendedRetain [['a', 'D', 'U', 'r']]
          ⟨['1', '0'], ['A', 'd', 'u', 'r'], ['E', 'S', 'P']⟩) :=
  ⟨by decide,
   surfer_filter_amended [['a', 'D', 'U', 'r']]
     ⟨['1', '0'], ['A', 'd', 'u', 'r'], ['E', 'S', 'P']⟩
     [⟨['1', '0'], ['A', 'd', 'u', 'r'], ['E', 'S', 'P']⟩,
      ⟨['1', '1'], ['L', 'e', 't', 'i'], ['E', 'S', 'P']⟩]
     (by decide)⟩

/-! ## C6 — discovery error policy -/

/-- C6 counterexample: page 1 succeeds with two descriptors and the indicator
claims more (total 5, last 2), but the next offset request raises a transport
error.  The exception propagates to the `try/except` wrapping all of
`get_surfers`, which returns the empty list — not the two descriptors
accumulated so far, as the claim requires. -/
theorem get_surfers_error_policy_counterexample :
    get_surfers
      ⟨.ok [⟨['1'], ['A'], ['E']⟩, ⟨['2'], ['B'], ['E']⟩] (some (1, 2, 5)),
       fun _ => .exn⟩ none = [] ∧
    ([⟨['1'], ['A'], ['E']⟩, ⟨['2'], ['B'], ['E']⟩] : List Desc) ≠ [] := by
  constructor
  · have hpag : paginateAthletes (fun _ => (.exn : FetchResult)) 5 2 = none := by
      rw [paginateAthletes, dif_pos (by omega)]
    simp [get_surfers, hpag]
  · decide

/-- C6 amended: a first-page failure (non-2xx status or transport error)
makes discovery return the empty sequence; a non-2xx status on a subsequent
pagination page stops pagination early and discovery returns, as a normal
result, the descriptors accumulated so far; a transport error on a subsequent
page, however, propagates to `get_surfers`' outer exception handler and
discovery returns the empty sequence, discarding the accumulation. -/
theorem get_surfers_error_policy_amended
    (env : DiscoveryEnv) (firstDescs : List Desc) (fi last total : Nat)
    (pages : List (List Desc))
    (hfirst : env.first = .ok firstDescs (some (fi, last, total)))
    (hwalk : ∀ i (h : i < pages.length),
        env.offsetPage (cumOffset last pages i) = .ok (pages.get ⟨i, h⟩) ∧
        pages.get ⟨i, h⟩ ≠ [] ∧ cumOffset last pages i < total)
    (hlt : cumOffset last pages pages.length < total) :
    (env.offsetPage (cumOffset last pages pages.length) = .badStatus →
        get_surfers env none = firstDescs ++ pages.flatten) ∧
    (env.offsetPage (cumOffset last pages pages.length) = .exn →
        get_surfers env none = []) ∧
    (∀ env2 : DiscoveryEnv, env2.first = .badStatus ∨ env2.first = .exn →
        get_surfers env2 none = []) := by
  refine ⟨?_, ?_, ?_⟩
  · intro hbad
    have htail : paginateAthletes env.offsetPage total
        (cumOffset last pages pages.length) = some [] := by
      rw [paginateAthletes, dif_pos hlt, hbad]
    have hpag : paginateAthletes env.offsetPage total last = some pages.flatten := by
      rw [paginate_walk env.offsetPage total pages last hwalk, htail]
      simp
    simp only [get_surfers, hfirst, hpag, applySurferFilter]
  · intro hexn
    have htail : paginateAthletes env.offsetPage total
        (cumOffset last pages pages.length) = none := by
      rw [paginateAthletes, dif_pos hlt, hexn]
    have hpag : paginateAthletes env.offsetPage total last = none := by
      rw [paginate_walk env.offsetPage total pages last hwalk, htail]
      rfl
    simp only [get_surfers, hfirst, hpag]
  · intro env2 h2
    rcases h2 with h | h <;> simp [get_surfers, h]

/-- Witness for C6 amended: page 1 yields [d1, d2] with indicator (1, 2, 5);
the offset request at 2 returns a non-200 status, and discovery returns
exactly [d1, d2]. -/
theorem get_surfers_error_policy_amended_witness :
    get_surfers
      ⟨.ok [⟨['1'], ['A'], ['E']⟩, ⟨['2'], ['B'], ['E']⟩] (some (1, 2, 5)),
       fun _ => .badStatus⟩ none
      = [⟨['1'], ['A'], ['E']⟩, ⟨['2'], ['B'], ['E']⟩] := by
  have h := get_surfers_error_policy_amended
    ⟨.ok [⟨['1'], ['A'], ['E']⟩, ⟨['2'], ['B'], ['E']⟩] (some (1, 2, 5)),
     fun _ => .badStatus⟩
    [⟨['1'], ['A'], ['E']⟩, ⟨['2'], ['B'], ['E']⟩] 1 2 5 []
    rfl (by decide) (by decide)
  simpa using h.1 rfl

/-! ## Worker pool of `run_scrape_job` (`ui_app.py`, lines 111-153)

The `as_completed` loop is modelled as a fold over the sequence of future
completions, each either a built `Surfer` object or the message of the
exception the worker raised.  Per completion the code appends the result (on
success) or an error log line (on caught failure), then in `finally`
increments `done` and, when `done` is a multiple of 5 or equals `total`,
appends a progress log line ("Avance: done/total"; the percentage suffix and
the ETA field are wall-clock/float formatting and are elided). -/

structure SurferRec where
  surfer_id : List Char
  name : List Char
  country : List Char
  events : List Nat
deriving DecidableEq, Repr

/-- The log line of the `except` branch (line 142):
`f"Error procesando surfista: {e}"` — it interpolates the exception message,
not the entity identity. -/
def errLine (msg : List Char) : List Char :=
  ('E' :: 'r' :: 'r' :: 'o' :: 'r' :: ' ' :: 'p' :: 'r' :: 'o' :: 'c' :: 'e' ::
   's' :: 'a' :: 'n' :: 'd' :: 'o' :: ' ' :: 's' :: 'u' :: 'r' :: 'f' :: 'i' ::
   's' :: 't' :: 'a' :: ':' :: ' ' :: []) ++ msg

/-- The periodic progress log line (line 152), percentage suffix elided. -/
def avanceLine (done total : Nat) : List Char :=
  ('A' :: 'v' :: 'a' :: 'n' :: 'c' :: 'e' :: ':' :: ' ' :: []) ++
    natRepr done ++ '/' :: natRepr total

/-- The job-visible state mutated by the completion loop. -/
structure PoolState where
  done : Nat
  collected : List SurferRec
  logs : List (List Char)
deriving DecidableEq, Repr

/-- One iteration of the `for fut in as_completed(futures)` body
(lines 137-153). -/
def poolStep (total : Nat) (st : PoolState)
    (o : Except (List Char) SurferRec) : PoolState :=
  let st1 :=
    match o with
    | .ok s => { st with collected := st.collected ++ [s] }
    | .error e => { st with logs := st.logs ++ [errLine e] }
  let d := st1.done + 1
  if d % 5 = 0 ∨ d = total then
    { st1 with done := d, logs := st1.logs ++ [avanceLine d total] }
  else
    { st1 with done := d }

/-- The initial pool state: `done = 0` (line 111 sets
`job['progress'] = {'total': total, 'done': 0, ...}`), nothing collected, and
the pool-phase log suffix empty. -/
def initPoolState : PoolState := ⟨0, [], []⟩

/-- The per-completion state trace of the pool loop. -/
def poolStates (outcomes : List (Except (List Char) SurferRec)) :
    List PoolState :=
  List.scanl (poolStep outcomes.length) initPoolState outcomes

/-- The final pool state. -/
def runPool (outcomes : List (Except (List Char) SurferRec)) : PoolState :=
  List.foldl (poolStep outcomes.length) initPoolState outcomes

theorem poolStep_done (total : Nat) (st : PoolState)
    (o : Except (List Char) SurferRec) :
    (poolStep total st o).done = st.done + 1 := by
  cases o <;> simp only [poolStep] <;> split <;> rfl

theorem poolStep_collected (total : Nat) (st : PoolState)
    (o : Except (List Char) SurferRec) :
    (poolStep total st o).collected =
      st.collected ++ (match o with | .ok s => [s] | .error _ => []) := by
  cases o <;> simp only [poolStep] <;> split <;> simp

theorem poolStep_logs_mono (total : Nat) (st : PoolState)
    (o : Except (List Char) SurferRec) :
    ∀ l ∈ st.logs, l ∈ (poolStep total st o).logs := by
  intro l hl
  cases o <;> simp only [poolStep] <;> split <;> simp [hl]

theorem scanl_poolStep_done (total : Nat) :
    ∀ (os : List (Except (List Char) SurferRec)) (st : PoolState) (i : Nat)
      (h : i < (List.scanl (poolStep total) st os).length),
    ((List.scanl (poolStep total) st os).get ⟨i, h⟩).done = st.done + i := by
  intro os
  induction os with
  | nil =>
    intro st i h
    simp only [List.scanl, List.length_cons, List.length_nil] at h
    interval_cases i
    simp
  | cons o os ih =>
    intro st i h
    cases i with
    | zero => simp
    | succ j =>
      simp only [List.scanl, List.get_cons_succ]
      rw [ih (poolStep total st o) j (by simpa [List.length_scanl] using h),
        poolStep_done]
      omega

theorem foldl_poolStep_done (total : Nat)
    (os : List (Except (List Char) SurferRec)) :
    ∀ st : PoolState, (List.foldl (poolStep total) st os).done =
      st.done + os.length := by
  induction os with
  | nil => intro st; simp
  | cons o os ih =>
    intro st
    simp only [List.foldl_cons, List.length_cons, ih, poolStep_done]
    omega

theorem foldl_poolStep_collected (total : Nat)
    (os : List (Except (List Char) SurferRec)) :
    ∀ st : PoolState, (List.foldl (poolStep total) st os).collected =
      st.collected ++ os.filterMap (fun o => o.toOption) := by
  induction os with
  | nil => intro st; simp
  | cons o os ih =>
    intro st
    cases o with
    | ok s => simp [ih, poolStep_collected, Except.toOption]
    | error e => simp [ih, poolStep_collected, Except.toOption]

theorem foldl_poolStep_logs_mono (total : Nat)
    (os : List (Except (List Char) SurferRec)) :
    ∀ (st : PoolState) (l : List Char), l ∈ st.logs →
      l ∈ (List.foldl (poolStep total) st os).logs := by
  induction os with
  | nil => intro st l hl; simpa using hl
  | cons o os ih =>
    intro st l hl
    exact ih (poolStep total st o) l (poolStep_logs_mono total st o l hl)

/-- C2: during pool execution over `total = outcomes.length` discovered
entities, the progress counter of the `i`-th state of the completion loop is
exactly `i`: it starts at 0, increases by exactly 1 on each completion
(success or caught failure), is monotonically non-decreasing, and always
satisfies `0 ≤ done ≤ total`. -/
theorem pool_progress_invariant
    (outcomes : List (Except (List Char) SurferRec)) (i : Nat)
    (h : i < (poolStates outcomes).length) :
    ((poolStates outcomes).get ⟨i, h⟩).done = i ∧
    ((poolStates outcomes).get ⟨i, h⟩).done ≤ outcomes.length := by
  have hi := scanl_poolStep_done outcomes.length outcomes initPoolState i h
  have hlen : (poolStates outcomes).length = outcomes.length + 1 := by
    simp [poolStates, List.length_scanl]
  rw [hlen] at h
  exact ⟨by simpa [poolStates, initPoolState] using hi,
    by rw [show ((poolStates outcomes).get ⟨i, by omega⟩).done = i from
      by simpa [poolStates, initPoolState] using hi]; omega⟩

/-- Witness for C2: three completions (success, caught failure, success);
after two completions the counter is exactly 2 and bounded by the total 3. -/
theorem pool_progress_invariant_witness :
    (2 < (poolStates [.ok ⟨['1'], ['A'], ['E'], []⟩, .error ['b'],
        .ok ⟨['2'], ['B'], ['E'], []⟩]).length) ∧
    ((poolStates [.ok ⟨['1'], ['A'], ['E'], []⟩, .error ['b'],
        .ok ⟨['2'], ['B'], ['E'], []⟩]).get
      ⟨2, by simp [poolStates, List.length_scanl]⟩).done = 2 := by
  refine ⟨by simp [poolStates, List.length_scanl], ?_⟩
  exact (pool_progress_invariant
    [.ok ⟨['1'], ['A'], ['E'], []⟩, .error ['b'], .ok ⟨['2'], ['B'], ['E'], []⟩]
    2 (by simp [poolStates, List.length_scanl])).1

/-! ## C7 — per-entity failure handling at the pool boundary -/

/-- C7 counterexample: entity id "4242" / name "Zed" fails with an exception
whose message is "boom".  The appended log line is
"Error procesando surfista: boom" — no appended log line contains the
entity's id or name (checked case-insensitively) — and the aggregated results
contain no EntityResult (empty or otherwise) for that entity: the failed
entity is omitted entirely, while the sibling entity's result survives. -/
theorem pool_error_claim_counterexample :
    ((runPool [.ok ⟨['1', '1'], ['A', 'n', 'n'], ['E', 'S', 'P'], [1, 2]⟩,
        .error ['b', 'o', 'o', 'm']]).logs.all (fun l =>
          !(decide (['4', '2', '4', '2'] <:+: l)) &&
          !(decide (['z', 'e', 'd'] <:+: toLowerStr l))) = true) ∧
    ((runPool [.ok ⟨['1', '1'], ['A', 'n', 'n'], ['E', 'S', 'P'], [1, 2]⟩,
        .error ['b', 'o', 'o', 'm']]).collected.all (fun r =>
          !(r.surfer_id == ['4', '2', '4', '2'])) = true) ∧
    (runPool [.ok ⟨['1', '1'], ['A', 'n', 'n'], ['E', 'S', 'P'], [1, 2]⟩,
        .error ['b', 'o', 'o', 'm']]).collected
      = [⟨['1', '1'], ['A', 'n', 'n'], ['E', 'S', 'P'], [1, 2]⟩] ∧
    (runPool [.ok ⟨['1', '1'], ['A', 'n', 'n'], ['E', 'S', 'P'], [1, 2]⟩,
        .error ['b', 'o', 'o', 'm']]).logs
      = [errLine ['b', 'o', 'o', 'm'], avanceLine 2 2] := by
  refine ⟨by decide, by decide, by decide, by decide⟩

/-- C7 amended: an unexpected error escaping the per-entity crawl is caught
at the worker-pool boundary; the appended log line carries the error's
message ("Error procesando surfista: <e>"), not necessarily the entity
identity; the failed entity contributes nothing to the aggregated results —
it is omitted rather than represented by an empty EntityResult, so it adds
zero SubRecords — and the processing of all sibling entities continues
unaffected, with the completion counter still covering every entity. -/
theorem pool_error_isolation_amended
    (pre post : List (Except (List Char) SurferRec)) (m : List Char) :
    (runPool (pre ++ .error m :: post)).collected =
        pre.filterMap (fun o => o.toOption) ++
        post.filterMap (fun o => o.toOption) ∧
    errLine m ∈ (runPool (pre ++ .error m :: post)).logs ∧
    (runPool (pre ++ .error m :: post)).done = (pre ++ .error m :: post).length := by
  refine ⟨?_, ?_, ?_⟩
  · rw [runPool, foldl_poolStep_collected]
    simp [Except.toOption, initPoolState]
  · rw [runPool, List.foldl_append, List.foldl_cons]
    apply foldl_poolStep_logs_mono
    have hmem : errLine m ∈ (poolStep (pre ++ .error m :: post).length
        (List.foldl (poolStep (pre ++ .error m :: post).length) initPoolState pre)
        (.error m)).logs := by
      simp only [poolStep]
      split <;> simp
    exact hmem
  · rw [runPool, foldl_poolStep_done]
    simp [initPoolState]

/-! ## C8 — date-range parsing
(`wsl_surfer_focused.py`, `_parse_date_range_to_iso`, lines 651-684)

The two anchored regexes are deterministic on any input (each quantified
class is disjoint from what follows it), so they are translated as maximal
character spans with the length bounds the quantifiers impose.  ASCII
letters/digits/whitespace model the Python classes (no input here exercises
the non-ASCII remainder of Unicode `\w`/`\d`/`\s`), and `$` is modelled as
end-of-string (no input carries a trailing newline). -/

/-- The dash normalisation `s.replace('–', '-').replace('—', '-')`
(line 668). -/
def normDash (c : Char) : Char :=
  if c = '–' || c = '—' then '-' else c

/-- The month-name table (lines 652-665). -/
def monthsTable : List (List Char × Nat) :=
  [("jan".toList, 1), ("january".toList, 1),
   ("feb".toList, 2), ("february".toList, 2),
   ("mar".toList, 3), ("march".toList, 3),
   ("apr".toList, 4), ("april".toList, 4),
   ("may".toList, 5),
   ("jun".toList, 6), ("june".toList, 6),
   ("jul".toList, 7), ("july".toList, 7),
   ("aug".toList, 8), ("august".toList, 8),
   ("sep".toList, 9), ("sept".toList, 9), ("september".toList, 9),
   ("oct".toList, 10), ("october".toList, 10),
   ("nov".toList, 11), ("november".toList, 11),
   ("dec".toList, 12), ("december".toList, 12)]

/-- Lookup `months.get(name)` on the lowercased captured month name. -/
def monthNum (m : List Char) : Option Nat :=
  (monthsTable.find? (fun kv => kv.1 == m)).map (fun kv => kv.2)

/-- The regex `^([A-Za-z]+)\s+(\d{1,2})\s*-\s*(\d{1,2}),\s*(\d{4})$`
(line 670), returning the captured month name and the three numbers. -/
def matchCase1 (s : List Char) : Option (List Char × Nat × Nat × Nat) :=
  match s.span Char.isAlpha with
  | (mon, r1) =>
    if mon.isEmpty then none else
    match r1.span pyIsSpace with
    | (sp1, r2) =>
      if sp1.isEmpty then none else
      match r2.span Char.isDigit with
      | (d1, r3) =>
        if d1.length = 0 || 2 < d1.length then none else
        match r3.dropWhile pyIsSpace with
        | '-' :: r5 =>
          match (r5.dropWhile pyIsSpace).span Char.isDigit with
          | (d2, r7) =>
            if d2.length = 0 || 2 < d2.length then none else
            match r7 with
            | ',' :: r8 =>
              match (r8.dropWhile pyIsSpace).span Char.isDigit with
              | (d4, r10) =>
                if d4.length = 4 && r10.isEmpty then
                  some (mon, reprVal d1, reprVal d2, reprVal d4)
                else none
            | _ => none
        | _ => none

/-- The regex `^([A-Za-z]+)\s+(\d{1,2})\s*-\s*([A-Za-z]+)\s+(\d{1,2}),\s*(\d{4})$`
(line 677). -/
def matchCase2 (s : List Char) :
    Option (List Char × Nat × List Char × Nat × Nat) :=
  match s.span Char.isAlpha with
  | (mon1, r1) =>
    if mon1.isEmpty then none else
    match r1.span pyIsSpace with
    | (sp1, r2) =>
      if sp1.isEmpty then none else
      match r2.span Char.isDigit with
      | (d1, r3) =>
        if d1.length = 0 || 2 < d1.length then none else
        match r3.dropWhile pyIsSpace with
        | '-' :: r5 =>
          match (r5.dropWhile pyIsSpace).span Char.isAlpha with
          | (mon2, r6) =>
            if mon2.isEmpty then none else
            match r6.span pyIsSpace with
            | (sp2, r7) =>
              if sp2.isEmpty then none else
              match r7.span Char.isDigit with
              | (d2, r8) =>
                if d2.length = 0 || 2 < d2.length then none else
                match r8 with
                | ',' :: r9 =>
                  match (r9.dropWhile pyIsSpace).span Char.isDigit with
                  | (d4, r11) =>
                    if d4.length = 4 && r11.isEmpty then
                      some (mon1, reprVal d1, mon2, reprVal d2, reprVal d4)
                    else none
                | _ => none
        | _ => none

/-- Formatting `f"{year:04d}-{mon:02d}-{day:02d}"`. -/
def fmtDate (y mon d : Nat) : List Char :=
  padNat 4 y ++ '-' :: padNat 2 mon ++ '-' :: padNat 2 d

/-- The one-month branch (lines 670-675): pattern match plus month lookup. -/
def case1Result (s : List Char) : Option (List Char × Option (List Char)) :=
  match matchCase1 s with
  | none => none
  | some (mon, d1, d2, y) =>
    match monthNum (toLowerStr mon) with
    | none => none
    | some m => some (fmtDate y m d1, some (fmtDate y m d2))

/-- The two-month branch (lines 677-682): pattern match plus both month
lookups. -/
def case2Result (s : List Char) : Option (List Char × Option (List Char)) :=
  match matchCase2 s with
  | none => none
  | some (mon1, d1, mon2, d2, y) =>
    match monthNum (toLowerStr mon1), monthNum (toLowerStr mon2) with
    | some m1, some m2 => some (fmtDate y m1 d1, some (fmtDate y m2 d2))
    | _, _ => none

/-- Embedding of `_parse_date_range_to_iso` (lines 651-684): strip, normalise dashes, try
the one-month pattern, then the two-month pattern, else fall back to the
normalised text with no end date.  (In the source a pattern match with an
unknown month name falls through to the next branch; since the two anchored
patterns are mutually exclusive on any one string, this chain is
equivalent.) -/
def parse_date_range_to_iso (text : List Char) :
    List Char × Option (List Char) :=
  match case1Result ((pyStrip text).map normDash) with
  | some r => r
  | none =>
    match case2Result ((pyStrip text).map normDash) with
    | some r => r
    | none => ((pyStrip text).map normDash, none)

/-- C8 counterexample: the unrecognised input "  hello  " is returned
stripped ("hello"), not as the original input text, so the fallback clause of
the claim fails. -/
theorem date_range_claim_counterexample :
    parse_date_range_to_iso "  hello  ".toList = ("hello".toList, none) ∧
    "hello".toList ≠ "  hello  ".toList := by
  constructor
  · decide
  · decide

/-- C8 amended: "Jun 2 - 8, 2025" parses to 2025-06-02 / 2025-06-08 and
"May 28 - Jun 3, 2025" parses to 2025-05-28 / 2025-06-03; every input
recognised by neither pattern is returned with the *stripped,
dash-normalised* input text as the start date and an empty end date. -/
theorem date_range_parsing_amended (t : List Char)
    (h1 : case1Result ((pyStrip t).map normDash) = none)
    (h2 : case2Result ((pyStrip t).map normDash) = none) :
    parse_date_range_to_iso "Jun 2 - 8, 2025".toList =
      ("2025-06-02".toList, some "2025-06-08".toList) ∧
    parse_date_range_to_iso "May 28 - Jun 3, 2025".toList =
      ("2025-05-28".toList, some "2025-06-03".toList) ∧
    parse_date_range_to_iso t = ((pyStrip t).map normDash, none) := by
  refine ⟨by decide, by decide, ?_⟩
  rw [parse_date_range_to_iso, h1, h2]

/-- Witness for C8 amended at the unrecognised input "March 2025". -/
theorem date_range_parsing_amended_witness :
    parse_date_range_to_iso "March 2025".toList = ("March 2025".toList, none) := by
  have h := date_range_parsing_amended "March 2025".toList (by decide) (by decide)
  have h3 := h.2.2
  rw [h3]
  decide

/-! ## C9 — job-id assignment at submission
(`ui_app.py`, `run_job`, lines 198-214)

`job_id = str(int(time.time()))` truncates the wall-clock seconds; the job
table is a Python dict, so `jobs[job_id] = {...}` replaces any existing entry
with the same key in place.  Submission times are modelled as rationals (the
exact value of the float clock); the submitted parameter bundle is abstract. -/

/-- Python `int()` on a rational: truncation toward zero. -/
def pyInt (q : ℚ) : Int :=
  if q.num < 0 then -((q.num.natAbs / q.den : Nat) : Int)
  else ((q.num.natAbs / q.den : Nat) : Int)

/-- Python `str()` of an integer. -/
def intRepr (i : Int) : List Char :=
  if i < 0 then '-' :: natRepr i.natAbs else natRepr i.natAbs

/-- The job id assigned at submission time (line 198). -/
def job_id_of (t : ℚ) : List Char :=
  intRepr (pyInt t)

/-- The job record created at submission (lines 199-213); the parameter
bundle is abstract. -/
structure JobSubmission where
  id : List Char
  status : String
  logs : List String
  summary : Option Nat
  params : Nat
deriving DecidableEq, Repr

def mkJob (jid : List Char) (params : Nat) : JobSubmission :=
  ⟨jid, "queued", [], none, params⟩

/-- Python dict assignment `jobs[job_id] = payload`: replace in place when
the key exists, append otherwise. -/
def dictInsert (tbl : List (List Char × JobSubmission)) (k : List Char)
    (v : JobSubmission) : List (List Char × JobSubmission) :=
  if tbl.any (fun p => p.1 == k) then
    tbl.map (fun p => if p.1 == k then (k, v) else p)
  else tbl ++ [(k, v)]

/-- Embedding of `run_job` (lines 198-214), reduced to its job-table effect. -/
def run_job (tbl : List (List Char × JobSubmission)) (t : ℚ) (params : Nat) :
    List (List Char × JobSubmission) :=
  dictInsert tbl (job_id_of t) (mkJob (job_id_of t) params)

/-- C9 counterexample: two distinct submissions within the same wall-clock
second (t = 100.2s and t = 100.9s, with different parameters) are assigned
the same id "100", and the second submission overwrites the first: the table
ends with exactly one record, holding the second submission's parameters. -/
theorem job_id_claim_counterexample :
    job_id_of (mkRat 501 5) = job_id_of (mkRat 1009 10) ∧
    (mkRat 501 5, 1) ≠ (mkRat 1009 10, 2) ∧
    run_job (run_job [] (mkRat 501 5) 1) (mkRat 1009 10) 2
      = [(['1', '0', '0'], mkJob ['1', '0', '0'] 2)] := by
  refine ⟨by decide, by decide, by decide⟩

theorem pyInt_nonneg (t : ℚ) (ht : 0 ≤ t) : 0 ≤ pyInt t := by
  have hnum : 0 ≤ t.num := Rat.num_nonneg.mpr ht
  rw [pyInt, if_neg (by omega)]
  exact Int.ofNat_nonneg _

theorem intRepr_inj_nonneg (a b : Int) (ha : 0 ≤ a) (hb : 0 ≤ b)
    (h : intRepr a = intRepr b) : a = b := by
  rw [intRepr, if_neg (by omega), intRepr, if_neg (by omega)] at h
  have := natRepr_injective h
  omega

/-- C9 amended: the job id is the decimal rendering of the submission time
truncated to whole seconds; two submissions get distinct ids — and then the
second submission appends a fresh record, leaving the first intact — iff
their times truncate to distinct integer seconds, the freshness of each id in
the current table being required; a submission whose id already exists
overwrites that record in place. -/
theorem job_id_uniqueness_amended
    (tbl : List (List Char × JobSubmission)) (t1 t2 : ℚ) (p1 p2 : Nat)
    (ht1 : 0 ≤ t1) (ht2 : 0 ≤ t2)
    (hne : pyInt t1 ≠ pyInt t2)
    (h1 : tbl.any (fun p => p.1 == job_id_of t1) = false)
    (h2 : (run_job tbl t1 p1).any (fun p => p.1 == job_id_of t2) = false) :
    job_id_of t1 ≠ job_id_of t2 ∧
    run_job (run_job tbl t1 p1) t2 p2
      = tbl ++ [(job_id_of t1, mkJob (job_id_of t1) p1),
                (job_id_of t2, mkJob (job_id_of t2) p2)] := by
  refine ⟨?_, ?_⟩
  · intro heq
    exact hne (intRepr_inj_nonneg _ _ (pyInt_nonneg t1 ht1) (pyInt_nonneg t2 ht2) heq)
  · have e1 : run_job tbl t1 p1 = tbl ++ [(job_id_of t1, mkJob (job_id_of t1) p1)] := by
      rw [run_job, dictInsert, if_neg (by simp [h1])]
    rw [run_job, dictInsert, if_neg (by simp [h2]), e1, List.append_assoc]
    rfl

/-- Witness for C9 amended: submissions at whole seconds 100 and 101 into an
empty table produce the two distinct records "100" and "101". -/
theorem job_id_uniqueness_amended_witness :
    job_id_of (100 : ℚ) ≠ job_id_of (101 : ℚ) ∧
    run_job (run_job [] (100 : ℚ) 1) (101 : ℚ) 2
      = [(job_id_of (100 : ℚ), mkJob (job_id_of (100 : ℚ)) 1),
         (job_id_of (101 : ℚ), mkJob (job_id_of (101 : ℚ)) 2)] := by
  have h := job_id_uniqueness_amended [] (100 : ℚ) (101 : ℚ) 1 2
    (by norm_num) (by norm_num) (by decide) (by decide) (by decide)
  exact ⟨h.1, by simpa using h.2⟩

/-! ## C10 — request-delay clamping
(`wsl_surfer_focused.py`, `WSLSurferFocused.__init__`, lines 64-97)

The constructor state relevant to pacing; Python falsiness of empty lists is
folded into the `Option` arguments, and `set(...)` deduplication of the tour
and location filters is elided (both are irrelevant to every claim here). -/

def toUpperStr (s : List Char) : List Char :=
  s.map Char.toUpper

/-- The table `COUNTRY_CODE_MAP` (config.py). -/
def countryCodeMap : List (List Char × Nat) :=
  [("ESP".toList, 208), ("BAS".toList, 253), ("CAN".toList, 250)]

structure ScraperConfig where
  years : List Int
  country_codes : List (List Char)
  country_ids : List Nat
  surfer_filter : Option (List (List Char))
  max_workers : Nat
  tours_filter : Option (List (List Char))
  request_delay : ℚ
  locations_filter : Option (List (List Char))

/-- Embedding of `WSLSurferFocused.__init__` (lines 84-91): in particular
`self.request_delay = max(0.0, request_delay)` on line 90. -/
def mkScraper (years : Option (List Int)) (countries : Option (List (List Char)))
    (surfer_filter : Option (List (List Char))) (max_workers : Nat)
    (tours : Option (List (List Char))) (request_delay : ℚ)
    (locations : Option (List (List Char))) : ScraperConfig :=
  { years := years.getD [2025]
    country_codes := countries.getD ["ESP".toList, "BAS".toList, "CAN".toList]
    country_ids :=
      (countries.getD ["ESP".toList, "BAS".toList, "CAN".toList]).filterMap
        (fun c => (countryCodeMap.find? (fun kv => kv.1 == toUpperStr c)).map
          (fun kv => kv.2))
    surfer_filter := surfer_filter
    max_workers := max_workers
    tours_filter := tours.map (fun ts => ts.map toUpperStr)
    request_delay := max 0 request_delay
    locations_filter := locations.map (fun ls => ls.map toLowerStr) }

/-- The duration passed to `time.sleep` by the pacing calls in
`get_surfer_events` (line 259) and `_get_event_details` (line 405): always
`self.request_delay`. -/
def pacing_sleep_duration (cfg : ScraperConfig) : ℚ :=
  cfg.request_delay

/-- C10: for every constructor argument `request_delay`, including negative
values, the stored pacing delay is `max(0.0, request_delay)`, so every pacing
call to `time.sleep` receives a non-negative duration (making `sleep`'s
invalid-argument branch unreachable for any configured delay). -/
theorem request_delay_clamped (years : Option (List Int))
    (countries surfer_filter tours locations : Option (List (List Char)))
    (max_workers : Nat) (d : ℚ) :
    (mkScraper years countries surfer_filter max_workers tours d
      locations).request_delay = max 0 d ∧
    0 ≤ pacing_sleep_duration
      (mkScraper years countries surfer_filter max_workers tours d locations) := by
  exact ⟨rfl, le_max_left 0 d⟩

end WslScrapper
